import Mathlib

/-!
Verification development for the edge-device capture→detect→alert pipeline
(`Device_Embedding/C/main.c`).

The program is embedded shallowly as a function from an `Input` (the
environment's responses: camera open success, frame reads, key events,
`time(NULL)` values, the detector result file, GPIO init success) to the
trace of observable events (`Event`) it performs together with its final
`ProgResult` (exit code, or still running).

Modelling notes, all taken from the C source:
* The source contains two evident typos (`frame.emptry()` for
  `frame.empty()` on line 30, and `File *file` for `FILE *file` on line 59);
  the embedding models the evident intent of those two lines.
* `cv::VideoCapture` is a stack object, so every `return` path runs its
  destructor, which releases the capture device (RAII); the embedding
  therefore records a `camRelease` event on the early-return paths as well.
  The explicit `cap.release()` on line 50 makes the later destructor call a
  no-op, so only one `camRelease` is recorded per run.
* `sizeof(line)` on line 85 is the size of `char line[100]`, i.e. the
  constant `100`, independent of the file contents; the embedding keeps the
  comparison `lineBufSize > 1` exactly as written.
* `sprintf(filename, "image%d.jpg", time(NULL))` derives the save filename
  from the wall-clock second; the embedding supplies the `time(NULL)` value
  of each loop iteration through the input.
-/

namespace DeviceEmbedding

/-- GPIO pin levels written by `digitalWrite`. -/
inductive Level where
  | high
  | low
deriving DecidableEq

/-- Observable events of one program run, in program order. -/
inductive Event where
  /-- Output of `printf`. -/
  | print (s : String)
  /-- Call of `cv::namedWindow` (creation of the preview surface). -/
  | namedWindow (title : String)
  /-- Call of `cv::imshow` (render one frame to the preview surface). -/
  | imshow (title : String)
  /-- Attempt of `cv::imwrite`: target filename and whether it succeeded. -/
  | imwriteAttempt (filename : String) (ok : Bool)
  /-- Call of `cap.release()` (explicit, or via the `cv::VideoCapture` destructor). -/
  | camRelease
  /-- Call of `cv::destroyAllWindows()`. -/
  | destroyAllWindows
  /-- Call of `system(cmd)` — the external detector invocation. -/
  | systemCall (cmd : String)
  /-- Attempt of `fopen(filename, "r")` on the result file. -/
  | fopenAttempt (filename : String)
  /-- Call of `fclose(file)`. -/
  | fcloseCall
  /-- Call of `wiringPiSetupGpio()` — entry into the buzzer stage. -/
  | gpioSetupCall
  /-- Call of `pinMode(pin, OUTPUT)`. -/
  | pinModeOutput (pin : Nat)
  /-- Call of `digitalWrite(pin, level)`. -/
  | digitalWrite (pin : Nat) (lvl : Level)
  /-- Call of `delay(ms)`. -/
  | delayMs (ms : Nat)
deriving DecidableEq

/-- The buzzer pin number of the define on line 5. -/
def BUZZER_PIN : Nat := 32

/-- Environment input consumed by one iteration of the capture loop:
the result of `cap.read(frame)`, the value `time(NULL)` would return during
this iteration, whether `cv::imwrite` would succeed, and the key delivered
by the trailing `cv::waitKey(1)`. -/
structure TickInput where
  frameOk : Bool
  timeNow : Nat
  imwriteOk : Bool
  nextKey : Char
deriving DecidableEq

/-- How the `while (key != 'q')` loop ends on the supplied finite input:
by the `'q'` key, by a failed frame read (`break`), or not at all within the
supplied input (the loop is still running). -/
inductive LoopOutcome where
  | quit
  | decodeError
  | running
deriving DecidableEq

/-- Filename produced by `sprintf(filename, "image%d.jpg", time(NULL))`. -/
def saveFilename (t : Nat) : String :=
  "image" ++ toString t ++ ".jpg"

/-- Events of the `key == 's'` branch (lines 37–46): the `imwrite` attempt
and the success/failure diagnostic. -/
def saveEvents (t : Nat) (ok : Bool) : List Event :=
  [Event.imwriteAttempt (saveFilename t) ok,
   if ok then Event.print ("image saved: " ++ saveFilename t ++ "\n")
   else Event.print "failed to save.\n"]

/-- The capture loop (lines 27–48). `key` is the most recent `waitKey`
result; each iteration reads a frame, renders it, saves it when the current
key is `'s'`, and polls the next key. -/
def runLoop (key : Char) (ticks : List TickInput) : List Event × LoopOutcome :=
  if key = 'q' then
    ([], LoopOutcome.quit)
  else
    match ticks with
    | [] => ([], LoopOutcome.running)
    | t :: rest =>
      if t.frameOk = false then
        ([Event.print "Cannot read frame.\n"], LoopOutcome.decodeError)
      else
        let here := Event.imshow "Camera" ::
          (if key = 's' then saveEvents t.timeNow t.imwriteOk else [])
        let tail := runLoop t.nextKey rest
        (here ++ tail.1, tail.2)

/-- One whole-run environment: whether the camera opens, whether the first
frame read succeeds, the initial `waitKey` result, the per-iteration inputs,
the detector's exit status, the result file (`none` = `fopen` fails,
`some chunks` = the successive strings `fgets` yields), and whether
`wiringPiSetupGpio` succeeds. -/
structure Input where
  camOpens : Bool
  firstFrameOk : Bool
  initialKey : Char
  ticks : List TickInput
  detectorExit : Int
  resultFile : Option (List String)
  gpioInitOk : Bool

/-- Final status of a run on finite input: exited with a code, or the
capture loop is still running. -/
inductive ProgResult where
  | exited (code : Int)
  | running
deriving DecidableEq

/-- The `--source` argument hard-coded into the detector command (line 54). -/
def detectSourceImage : String := "image1.jpg"

/-- The full `system()` command string of line 54. -/
def detectCmd : String :=
  "python3 detect.py --weights yolov5s-fp16.tflite --img 640 --conf 0.25 --source "
    ++ detectSourceImage ++ " --save-txt "

/-- The result filename hard-coded on line 61. -/
def resultFilename : String := "image1.txt"

/-- Value of `sizeof(line)` for `char line[100]` (line 62): the constant 100. -/
def lineBufSize : Nat := 100

/-- The buzzer pulse block (lines 86–90). -/
def pulseEvents : List Event :=
  [Event.pinModeOutput BUZZER_PIN,
   Event.digitalWrite BUZZER_PIN Level.high,
   Event.delayMs 500,
   Event.digitalWrite BUZZER_PIN Level.low,
   Event.delayMs 500]

/-- Everything after the capture loop (lines 50–92): release the camera,
destroy the preview windows, invoke the detector, open/read/close the
result file, and run the buzzer stage. -/
def postLoop (inp : Input) : List Event × ProgResult :=
  let sysEvs := [Event.camRelease, Event.destroyAllWindows,
                 Event.systemCall detectCmd, Event.fopenAttempt resultFilename]
  match inp.resultFile with
  | none =>
    (sysEvs ++ [Event.print "Cannot open file.\n"], ProgResult.exited 1)
  | some chunks =>
    let readEvs := chunks.map Event.print
    let evs := sysEvs ++ readEvs ++ [Event.fcloseCall, Event.gpioSetupCall]
    if inp.gpioInitOk = false then
      (evs ++ [Event.print "failed to WiringPi library initialization"],
       ProgResult.exited (-1))
    else
      if lineBufSize > 1 then
        (evs ++ pulseEvents, ProgResult.exited 0)
      else
        (evs, ProgResult.exited 0)

/-- The whole of `main` (lines 7–93) as a trace-producing function. -/
def mainRun (inp : Input) : List Event × ProgResult :=
  if inp.camOpens = false then
    ([Event.print "Cannot open camera.\n", Event.camRelease],
     ProgResult.exited (-1))
  else if inp.firstFrameOk = false then
    ([Event.print "Cannot read frame.\n", Event.camRelease],
     ProgResult.exited (-1))
  else
    let pre := [Event.namedWindow "Camera", Event.imshow "Camera"]
    let loop := runLoop inp.initialKey inp.ticks
    match loop.2 with
    | LoopOutcome.running => (pre ++ loop.1, ProgResult.running)
    | _ =>
      let post := postLoop inp
      (pre ++ loop.1 ++ post.1, post.2)

/-- Modelled from the spec: the spec's detection predicate for a result
file, used only to state divergences — `hasDetection` is true iff at least
one line, after trimming, is non-empty, i.e. iff some line contains a
non-whitespace character. (The C code has no such predicate; its alert
condition is `sizeof(line) > 1`.) -/
def specHasDetection (chunks : List String) : Bool :=
  chunks.any (fun l => l.data.any (fun c => !c.isWhitespace))

/-- Is this event a `digitalWrite` (a pin write)? -/
def isPinWrite : Event → Bool
  | Event.digitalWrite _ _ => true
  | _ => false

/-- The pin writes of a trace, in order. -/
def pinWrites (evs : List Event) : List Event :=
  evs.filter isPinWrite

/-- Is this event an `imwrite` attempt (an image save)? -/
def isImageSave : Event → Bool
  | Event.imwriteAttempt _ _ => true
  | _ => false

/-- The image-save events of a trace, in order. -/
def savedEvents (evs : List Event) : List Event :=
  evs.filter isImageSave

/-- Is this event part of the post-loop stages (camera release onwards)? -/
def isStageEvent : Event → Bool
  | Event.camRelease => true
  | Event.destroyAllWindows => true
  | Event.systemCall _ => true
  | Event.fopenAttempt _ => true
  | Event.fcloseCall => true
  | Event.gpioSetupCall => true
  | Event.pinModeOutput _ => true
  | Event.digitalWrite _ _ => true
  | Event.delayMs _ => true
  | _ => false

/-- Is this event a GPIO event (setup, pin mode, write, or delay)? -/
def isGpioEvent : Event → Bool
  | Event.gpioSetupCall => true
  | Event.pinModeOutput _ => true
  | Event.digitalWrite _ _ => true
  | Event.delayMs _ => true
  | _ => false

/-- Is this event the detector invocation (`system`)? -/
def isDetectorCall : Event → Bool
  | Event.systemCall _ => true
  | _ => false

/-- Is this event an `fopen` attempt? -/
def isFopen : Event → Bool
  | Event.fopenAttempt _ => true
  | _ => false

/-- Is this event the `wiringPiSetupGpio()` call? -/
def isGpioSetup : Event → Bool
  | Event.gpioSetupCall => true
  | _ => false

/-- The key sequence a run consumes: the initial `waitKey` result followed
by each iteration's polled key. -/
def keysOf (initialKey : Char) (ticks : List TickInput) : List Char :=
  initialKey :: ticks.map TickInput.nextKey

/-- A run in which the user quits immediately and the detector's result
file exists but holds a single blank line (so the spec's `hasDetection`
is false), with working GPIO. -/
def inpC1 : Input :=
  { camOpens := true, firstFrameOk := true, initialKey := 'q', ticks := [],
    detectorExit := 0, resultFile := some ["\n"], gpioInitOk := true }

/-- The iteration inputs of a session with two `'s'` saves falling in the
same wall-clock second (`time(NULL) = 1000` for both). -/
def ticksC2 : List TickInput :=
  [{ frameOk := true, timeNow := 1000, imwriteOk := true, nextKey := 's' },
   { frameOk := true, timeNow := 1000, imwriteOk := true, nextKey := 'q' }]

/-- A run in which the detector exits with the non-zero status 1 while its
result file exists with one detection line. -/
def inpC3 : Input :=
  { camOpens := true, firstFrameOk := true, initialKey := 'q', ticks := [],
    detectorExit := 1, resultFile := some ["person 0.91 10 20 30 40\n"],
    gpioInitOk := true }

/-- A run in which the user quits immediately and the detector's result
file exists but is empty (`fgets` yields nothing), with working GPIO. -/
def inpC4 : Input :=
  { camOpens := true, firstFrameOk := true, initialKey := 'q', ticks := [],
    detectorExit := 0, resultFile := some [], gpioInitOk := true }

/-- A run in which the user quits immediately and the result file is
missing. -/
def inpC5 : Input :=
  { camOpens := true, firstFrameOk := true, initialKey := 'q', ticks := [],
    detectorExit := 0, resultFile := none, gpioInitOk := true }

/-- A run with one save at wall-clock time 2 (producing `image2.jpg`). -/
def inpC6 : Input :=
  { camOpens := true, firstFrameOk := true, initialKey := 's',
    ticks := [{ frameOk := true, timeNow := 2, imwriteOk := true,
                nextKey := 'q' }],
    detectorExit := 0, resultFile := some [], gpioInitOk := true }

/-- A run that quits immediately with an existing empty result file. -/
def inpC7 : Input :=
  { camOpens := true, firstFrameOk := true, initialKey := 'q', ticks := [],
    detectorExit := 0, resultFile := some [], gpioInitOk := true }

/-- One loop iteration whose polled key is `'a'` (neither save nor quit). -/
def ticksC8 : List TickInput :=
  [{ frameOk := true, timeNow := 5, imwriteOk := true, nextKey := 'a' }]

/-- A run whose GPIO initialization fails while the result file exists with
one detection line. -/
def inpC9 : Input :=
  { camOpens := true, firstFrameOk := true, initialKey := 'q', ticks := [],
    detectorExit := 0, resultFile := some ["person 0.91 10 20 30 40\n"],
    gpioInitOk := false }

/-- A run with no save at all (immediate quit) and a missing result file. -/
def inpC10 : Input :=
  { camOpens := true, firstFrameOk := true, initialKey := 'q', ticks := [],
    detectorExit := 0, resultFile := none, gpioInitOk := true }

/-- Every event the capture loop emits is a diagnostic, a render or an
image save — never a post-loop stage event. -/
theorem runLoop_no_stage_mem (key : Char) (ticks : List TickInput) :
    ∀ e ∈ (runLoop key ticks).1, isStageEvent e = false := by
  induction ticks generalizing key with
  | nil =>
    intro e he
    by_cases h : key = 'q' <;> simp [runLoop, h] at he
  | cons t rest ih =>
    intro e he
    by_cases h : key = 'q'
    · simp [runLoop, h] at he
    · by_cases hf : t.frameOk = false
      · simp [runLoop, h, hf] at he
        subst he; rfl
      · by_cases hs : key = 's'
        · by_cases hw : t.imwriteOk = true
          · simp [runLoop, h, hf, hs, hw, saveEvents] at he
            rcases he with rfl | rfl | rfl | he
            · rfl
            · rfl
            · rfl
            · exact ih t.nextKey e he
          · simp [runLoop, h, hf, hs, hw, saveEvents] at he
            rcases he with rfl | rfl | rfl | he
            · rfl
            · rfl
            · rfl
            · exact ih t.nextKey e he
        · simp [runLoop, h, hf, hs] at he
          rcases he with rfl | he
          · rfl
          · exact ih t.nextKey e he

/-- The capture loop performs no post-loop stage events. -/
theorem runLoop_no_stage_events (key : Char) (ticks : List TickInput) :
    (runLoop key ticks).1.filter isStageEvent = [] := by
  rw [List.filter_eq_nil_iff]
  intro e he
  simp [runLoop_no_stage_mem key ticks e he]

/-- Claim C1: `fire` with `hasDetection = false` is claimed to produce zero
pin writes; on this run the result file holds only a blank line, so the
spec's `hasDetection` is false, yet the program's alert condition is the
constant `sizeof(line) > 1` and a full HIGH/LOW pulse is still written. -/
theorem C1_pulse_fires_without_detection :
    specHasDetection ["\n"] = false ∧
    pinWrites (mainRun inpC1).1 =
      [Event.digitalWrite BUZZER_PIN Level.high,
       Event.digitalWrite BUZZER_PIN Level.low] := by
  constructor
  · decide
  · rfl

/-- Claim C2: two distinct save events are claimed to always produce
distinct filenames; with the initial key `'s'` and `ticksC2`, two saves in
the same second both write `image1000.jpg` (the second overwrites the
first), because the filename is `time(NULL)` truncated to seconds. -/
theorem C2_same_second_saves_collide :
    savedEvents (runLoop 's' ticksC2).1 =
      [Event.imwriteAttempt "image1000.jpg" true,
       Event.imwriteAttempt "image1000.jpg" true] := by
  rfl

/-- Claim C4: an empty result file is indeed not treated as an error (the
run exits 0 and never prints the open-failure diagnostic), but the claim's
"no buzzer pulse follows" fails: the alert condition is the constant
`sizeof(line) > 1`, so the pulse is written anyway. -/
theorem C4_empty_file_no_error_but_pulse :
    (mainRun inpC4).2 = ProgResult.exited 0 ∧
    Event.print "Cannot open file.\n" ∉ (mainRun inpC4).1 ∧
    pinWrites (mainRun inpC4).1 ≠ [] := by
  refine ⟨rfl, ?_, ?_⟩
  · decide
  · decide

/-- Filtering a trace of `print` events by a predicate that rejects every
`print` yields nothing. -/
theorem filter_print_map (p : Event → Bool) (hp : ∀ s, p (Event.print s) = false)
    (chunks : List String) :
    (chunks.map Event.print).filter p = [] := by
  induction chunks with
  | nil => rfl
  | cons c cs ih => simp [List.filter_cons, hp, ih]

/-- The capture loop's trace contains no event satisfying any predicate
that only stage events satisfy. -/
theorem runLoop_filter_eq_nil (p : Event → Bool)
    (hp : ∀ e, p e = true → isStageEvent e = true)
    (key : Char) (ticks : List TickInput) :
    (runLoop key ticks).1.filter p = [] := by
  rw [List.filter_eq_nil_iff]
  intro e he hpe
  have h1 := runLoop_no_stage_mem key ticks e he
  rw [hp e hpe] at h1
  exact absurd h1 (by decide)

/-- A pin write is a stage event. -/
theorem stage_of_isPinWrite : ∀ e, isPinWrite e = true → isStageEvent e = true := by
  intro e h
  cases e <;> first | rfl | simp [isPinWrite] at h

/-- A detector invocation is a stage event. -/
theorem stage_of_isDetectorCall :
    ∀ e, isDetectorCall e = true → isStageEvent e = true := by
  intro e h
  cases e <;> first | rfl | simp [isDetectorCall] at h

/-- An `fopen` attempt is a stage event. -/
theorem stage_of_isFopen : ∀ e, isFopen e = true → isStageEvent e = true := by
  intro e h
  cases e <;> first | rfl | simp [isFopen] at h

/-- The GPIO setup call is a stage event. -/
theorem stage_of_isGpioSetup :
    ∀ e, isGpioSetup e = true → isStageEvent e = true := by
  intro e h
  cases e <;> first | rfl | simp [isGpioSetup] at h

/-- A GPIO event is a stage event. -/
theorem stage_of_isGpioEvent :
    ∀ e, isGpioEvent e = true → isStageEvent e = true := by
  intro e h
  cases e <;> first | rfl | simp [isGpioEvent] at h

/-- The capture loop writes no pin levels. -/
theorem runLoop_no_pin_writes (key : Char) (ticks : List TickInput) :
    (runLoop key ticks).1.filter isPinWrite = [] :=
  runLoop_filter_eq_nil isPinWrite stage_of_isPinWrite key ticks

/-- On a run whose camera opens, whose first frame decodes and whose loop
terminates (by `'q'` or a failed read), `mainRun` is the preview prefix,
the loop trace, and the post-loop stages. -/
theorem mainRun_terminated (inp : Input)
    (hcam : inp.camOpens = true) (hff : inp.firstFrameOk = true)
    (hloop : (runLoop inp.initialKey inp.ticks).2 ≠ LoopOutcome.running) :
    mainRun inp =
      (Event.namedWindow "Camera" :: Event.imshow "Camera" ::
        ((runLoop inp.initialKey inp.ticks).1 ++ (postLoop inp).1),
       (postLoop inp).2) := by
  rw [mainRun, hcam, hff]
  rcases hout : (runLoop inp.initialKey inp.ticks).2 with _ | _ | _
  · simp [hout]
  · simp [hout]
  · exact absurd hout hloop

/-- If the loop input runs out before `'q'` or a decode failure, the whole
program is still running. -/
theorem mainRun_still_running (inp : Input)
    (hcam : inp.camOpens = true) (hff : inp.firstFrameOk = true)
    (hrun : (runLoop inp.initialKey inp.ticks).2 = LoopOutcome.running) :
    (mainRun inp).2 = ProgResult.running := by
  rw [mainRun, hcam, hff]
  simp [hrun]

/-- Post-loop stages when the result file is missing (lines 65–69). -/
theorem postLoop_none (inp : Input) (h : inp.resultFile = none) :
    postLoop inp =
      ([Event.camRelease, Event.destroyAllWindows, Event.systemCall detectCmd,
        Event.fopenAttempt resultFilename, Event.print "Cannot open file.\n"],
       ProgResult.exited 1) := by
  simp [postLoop, h]

/-- Post-loop stages when the result file exists but GPIO init fails. -/
theorem postLoop_gpioFail (inp : Input) (chunks : List String)
    (h : inp.resultFile = some chunks) (hg : inp.gpioInitOk = false) :
    postLoop inp =
      ([Event.camRelease, Event.destroyAllWindows, Event.systemCall detectCmd,
        Event.fopenAttempt resultFilename] ++ chunks.map Event.print ++
        [Event.fcloseCall, Event.gpioSetupCall,
         Event.print "failed to WiringPi library initialization"],
       ProgResult.exited (-1)) := by
  simp [postLoop, h, hg]

/-- Post-loop stages when the result file exists and GPIO init succeeds:
the pulse always follows, because `sizeof(line) > 1` is constant. -/
theorem postLoop_gpioOk (inp : Input) (chunks : List String)
    (h : inp.resultFile = some chunks) (hg : inp.gpioInitOk = true) :
    postLoop inp =
      ([Event.camRelease, Event.destroyAllWindows, Event.systemCall detectCmd,
        Event.fopenAttempt resultFilename] ++ chunks.map Event.print ++
        [Event.fcloseCall, Event.gpioSetupCall] ++ pulseEvents,
       ProgResult.exited 0) := by
  simp [postLoop, h, hg, lineBufSize]

/-- Every post-loop trace releases the camera. -/
theorem camRelease_mem_postLoop (inp : Input) :
    Event.camRelease ∈ (postLoop inp).1 := by
  rcases hre : inp.resultFile with _ | chunks
  · rw [postLoop_none inp hre]; simp
  · by_cases hg : inp.gpioInitOk = false
    · rw [postLoop_gpioFail inp chunks hre hg]; simp
    · rw [postLoop_gpioOk inp chunks hre (by revert hg; cases inp.gpioInitOk <;> simp)]
      simp

/-- Every post-loop trace destroys the preview windows. -/
theorem destroyAllWindows_mem_postLoop (inp : Input) :
    Event.destroyAllWindows ∈ (postLoop inp).1 := by
  rcases hre : inp.resultFile with _ | chunks
  · rw [postLoop_none inp hre]; simp
  · by_cases hg : inp.gpioInitOk = false
    · rw [postLoop_gpioFail inp chunks hre hg]; simp
    · rw [postLoop_gpioOk inp chunks hre (by revert hg; cases inp.gpioInitOk <;> simp)]
      simp

/-- No post-loop stage saves an image. -/
theorem postLoop_no_saves (inp : Input) :
    (postLoop inp).1.filter isImageSave = [] := by
  have hmap := filter_print_map isImageSave (fun s => rfl)
  rcases hre : inp.resultFile with _ | chunks
  · rw [postLoop_none inp hre]; rfl
  · by_cases hg : inp.gpioInitOk = false
    · rw [postLoop_gpioFail inp chunks hre hg]
      simp [List.filter_append, hmap chunks, isImageSave]
    · rw [postLoop_gpioOk inp chunks hre (by revert hg; cases inp.gpioInitOk <;> simp)]
      simp [List.filter_append, hmap chunks, isImageSave, pulseEvents]

/-- A predicate satisfied only by stage events selects the same events from
a terminated whole run as from its post-loop part. -/
theorem mainRun_filter_stage (inp : Input) (p : Event → Bool)
    (hp : ∀ e, p e = true → isStageEvent e = true)
    (hcam : inp.camOpens = true) (hff : inp.firstFrameOk = true)
    (hloop : (runLoop inp.initialKey inp.ticks).2 ≠ LoopOutcome.running) :
    (mainRun inp).1.filter p = (postLoop inp).1.filter p := by
  rw [mainRun_terminated inp hcam hff hloop]
  have hn : p (Event.namedWindow "Camera") = false := by
    cases hpn : p (Event.namedWindow "Camera")
    · rfl
    · exact absurd (hp _ hpn) (by decide)
  have hi : p (Event.imshow "Camera") = false := by
    cases hpn : p (Event.imshow "Camera")
    · rfl
    · exact absurd (hp _ hpn) (by decide)
  simp [List.filter_cons, hn, hi, List.filter_append,
        runLoop_filter_eq_nil p hp inp.initialKey inp.ticks]

/-- Claim C3 (counterexample): the detector exits with non-zero status 1,
yet the run still opens and reads the result file — the pipeline proceeds
to ResultReader despite `Failed`. -/
theorem C3_failed_detector_still_reads :
    inpC3.detectorExit ≠ 0 ∧
    Event.fopenAttempt resultFilename ∈ (mainRun inpC3).1 ∧
    Event.fcloseCall ∈ (mainRun inpC3).1 := by
  refine ⟨by decide, ?_, ?_⟩
  · decide
  · decide

/-- Claim C3 (amended): the program ignores the detector's exit status
entirely — the whole observable run (trace and exit code) is the same for
any two exit statuses, so the result file is read (and the alert stage
runs) regardless of a detector failure. -/
theorem C3_exit_status_ignored (inp : Input) (e1 e2 : Int) :
    mainRun { inp with detectorExit := e1 } =
      mainRun { inp with detectorExit := e2 } := by
  cases inp
  rfl

/-- Claim C5: on every terminated session whose result file is missing,
`fopen` fails, the diagnostic is printed, the run exits with code 1, and
no pin is ever written — a reported failure with alerting skipped, not a
crash and not a result. -/
theorem C5_missing_file_reported_no_alert (inp : Input)
    (hcam : inp.camOpens = true) (hff : inp.firstFrameOk = true)
    (hloop : (runLoop inp.initialKey inp.ticks).2 ≠ LoopOutcome.running)
    (hmiss : inp.resultFile = none) :
    (mainRun inp).2 = ProgResult.exited 1 ∧
    Event.print "Cannot open file.\n" ∈ (mainRun inp).1 ∧
    pinWrites (mainRun inp).1 = [] := by
  refine ⟨?_, ?_, ?_⟩
  · rw [mainRun_terminated inp hcam hff hloop, postLoop_none inp hmiss]
  · rw [mainRun_terminated inp hcam hff hloop, postLoop_none inp hmiss]
    simp
  · rw [pinWrites,
        mainRun_filter_stage inp isPinWrite stage_of_isPinWrite hcam hff hloop,
        postLoop_none inp hmiss]
    rfl

/-- Claim C5 witness: the concrete immediate-quit run with a missing
result file. -/
theorem C5_missing_file_witness :
    (mainRun inpC5).2 = ProgResult.exited 1 ∧
    Event.print "Cannot open file.\n" ∈ (mainRun inpC5).1 ∧
    pinWrites (mainRun inpC5).1 = [] :=
  C5_missing_file_reported_no_alert inpC5 rfl rfl (by decide) rfl

/-- Every post-loop trace contains the fixed detector invocation. -/
theorem systemCall_mem_postLoop (inp : Input) :
    Event.systemCall detectCmd ∈ (postLoop inp).1 := by
  rcases hre : inp.resultFile with _ | chunks
  · rw [postLoop_none inp hre]; simp
  · by_cases hg : inp.gpioInitOk = false
    · rw [postLoop_gpioFail inp chunks hre hg]; simp
    · rw [postLoop_gpioOk inp chunks hre (by revert hg; cases inp.gpioInitOk <;> simp)]
      simp

/-- Every post-loop trace contains the fixed result-file `fopen`. -/
theorem fopenAttempt_mem_postLoop (inp : Input) :
    Event.fopenAttempt resultFilename ∈ (postLoop inp).1 := by
  rcases hre : inp.resultFile with _ | chunks
  · rw [postLoop_none inp hre]; simp
  · by_cases hg : inp.gpioInitOk = false
    · rw [postLoop_gpioFail inp chunks hre hg]; simp
    · rw [postLoop_gpioOk inp chunks hre (by revert hg; cases inp.gpioInitOk <;> simp)]
      simp

/-- The post-loop stages invoke the detector exactly once, always with the
fixed command. -/
theorem postLoop_detectorCalls (inp : Input) :
    (postLoop inp).1.filter isDetectorCall = [Event.systemCall detectCmd] := by
  have hmap := filter_print_map isDetectorCall (fun s => rfl)
  rcases hre : inp.resultFile with _ | chunks
  · rw [postLoop_none inp hre]; rfl
  · by_cases hg : inp.gpioInitOk = false
    · rw [postLoop_gpioFail inp chunks hre hg]
      simp [List.filter_append, hmap chunks, isDetectorCall]
    · rw [postLoop_gpioOk inp chunks hre (by revert hg; cases inp.gpioInitOk <;> simp)]
      simp [List.filter_append, hmap chunks, isDetectorCall, pulseEvents]

/-- The post-loop stages attempt `fopen` exactly once, always on the fixed
result filename. -/
theorem postLoop_fopens (inp : Input) :
    (postLoop inp).1.filter isFopen = [Event.fopenAttempt resultFilename] := by
  have hmap := filter_print_map isFopen (fun s => rfl)
  rcases hre : inp.resultFile with _ | chunks
  · rw [postLoop_none inp hre]; rfl
  · by_cases hg : inp.gpioInitOk = false
    · rw [postLoop_gpioFail inp chunks hre hg]
      simp [List.filter_append, hmap chunks, isFopen]
    · rw [postLoop_gpioOk inp chunks hre (by revert hg; cases inp.gpioInitOk <;> simp)]
      simp [List.filter_append, hmap chunks, isFopen, pulseEvents]

/-- When the result file is missing the post-loop stages perform no GPIO
action at all. -/
theorem postLoop_none_no_gpio (inp : Input) (h : inp.resultFile = none) :
    (postLoop inp).1.filter isGpioEvent = [] := by
  rw [postLoop_none inp h]; rfl

/-- When the result file exists, the post-loop stages call
`wiringPiSetupGpio` exactly once. -/
theorem postLoop_gpioSetups (inp : Input) (chunks : List String)
    (h : inp.resultFile = some chunks) :
    (postLoop inp).1.filter isGpioSetup = [Event.gpioSetupCall] := by
  have hmap := filter_print_map isGpioSetup (fun s => rfl)
  by_cases hg : inp.gpioInitOk = false
  · rw [postLoop_gpioFail inp chunks h hg]
    simp [List.filter_append, hmap chunks, isGpioSetup]
  · rw [postLoop_gpioOk inp chunks h (by revert hg; cases inp.gpioInitOk <;> simp)]
    simp [List.filter_append, hmap chunks, isGpioSetup, pulseEvents]

/-- Claim C6 (counterexample): a save at wall-clock time 2 writes
`image2.jpg`, yet the detector is invoked on the hard-coded `image1.jpg`
and the result is read from the hard-coded `image1.txt`, neither of which
is derived from the saved image's name. -/
theorem C6_saved_path_not_used :
    savedEvents (mainRun inpC6).1 = [Event.imwriteAttempt "image2.jpg" true] ∧
    Event.systemCall detectCmd ∈ (mainRun inpC6).1 ∧
    Event.fopenAttempt "image1.txt" ∈ (mainRun inpC6).1 ∧
    detectSourceImage ≠ "image2.jpg" ∧
    resultFilename ≠ "image2.txt" := by
  refine ⟨rfl, by decide, by decide, by decide, by decide⟩

/-- Claim C6 (amended): on every terminated session the detector is
invoked on the fixed path `image1.jpg` and the result is read from the
fixed path `image1.txt` — the only detector command and the only `fopen`
target in the whole trace are those fixed ones, independent of which
images the session saved. -/
theorem C6_fixed_detector_paths (inp : Input)
    (hcam : inp.camOpens = true) (hff : inp.firstFrameOk = true)
    (hloop : (runLoop inp.initialKey inp.ticks).2 ≠ LoopOutcome.running) :
    Event.systemCall detectCmd ∈ (mainRun inp).1 ∧
    Event.fopenAttempt resultFilename ∈ (mainRun inp).1 ∧
    (∀ cmd, Event.systemCall cmd ∈ (mainRun inp).1 → cmd = detectCmd) ∧
    (∀ f, Event.fopenAttempt f ∈ (mainRun inp).1 → f = resultFilename) := by
  refine ⟨?_, ?_, ?_, ?_⟩
  · rw [mainRun_terminated inp hcam hff hloop]
    simp [systemCall_mem_postLoop inp]
  · rw [mainRun_terminated inp hcam hff hloop]
    simp [fopenAttempt_mem_postLoop inp]
  · intro cmd h
    have hmem : Event.systemCall cmd ∈ (mainRun inp).1.filter isDetectorCall :=
      List.mem_filter.mpr ⟨h, rfl⟩
    rw [mainRun_filter_stage inp isDetectorCall stage_of_isDetectorCall hcam hff hloop,
        postLoop_detectorCalls inp] at hmem
    simpa using hmem
  · intro f h
    have hmem : Event.fopenAttempt f ∈ (mainRun inp).1.filter isFopen :=
      List.mem_filter.mpr ⟨h, rfl⟩
    rw [mainRun_filter_stage inp isFopen stage_of_isFopen hcam hff hloop,
        postLoop_fopens inp] at hmem
    simpa using hmem

/-- Claim C6 witness: the amended statement applied to the concrete
one-save session. -/
theorem C6_fixed_detector_paths_witness :
    Event.systemCall detectCmd ∈ (mainRun inpC6).1 ∧
    Event.fopenAttempt resultFilename ∈ (mainRun inpC6).1 ∧
    (∀ cmd, Event.systemCall cmd ∈ (mainRun inpC6).1 → cmd = detectCmd) ∧
    (∀ f, Event.fopenAttempt f ∈ (mainRun inpC6).1 → f = resultFilename) :=
  C6_fixed_detector_paths inpC6 rfl rfl (by decide)

/-- Claim C7: on every run whose session started (camera opened) and that
terminated with an exit code — whether via `'q'` or a failed frame read,
and on every downstream error path — the camera handle is released, and
whenever the preview window was created it is destroyed. -/
theorem C7_resources_released (inp : Input) (c : Int)
    (hcam : inp.camOpens = true)
    (hexit : (mainRun inp).2 = ProgResult.exited c) :
    Event.camRelease ∈ (mainRun inp).1 ∧
    (inp.firstFrameOk = true → Event.destroyAllWindows ∈ (mainRun inp).1) := by
  by_cases hff : inp.firstFrameOk = true
  · have hloop : (runLoop inp.initialKey inp.ticks).2 ≠ LoopOutcome.running := by
      intro hrun
      rw [mainRun_still_running inp hcam hff hrun] at hexit
      exact ProgResult.noConfusion hexit
    rw [mainRun_terminated inp hcam hff hloop]
    refine ⟨?_, fun _ => ?_⟩
    · simp [camRelease_mem_postLoop inp]
    · simp [destroyAllWindows_mem_postLoop inp]
  · have hffF : inp.firstFrameOk = false := by
      revert hff; cases inp.firstFrameOk <;> simp
    have hmain : mainRun inp =
        ([Event.print "Cannot read frame.\n", Event.camRelease],
         ProgResult.exited (-1)) := by
      rw [mainRun, hcam, hffF]
      simp
    rw [hmain]
    exact ⟨by simp, fun h => absurd h hff⟩

/-- Claim C7 witness: the concrete immediate-quit run. -/
theorem C7_resources_released_witness :
    Event.camRelease ∈ (mainRun inpC7).1 ∧
    (inpC7.firstFrameOk = true → Event.destroyAllWindows ∈ (mainRun inpC7).1) :=
  C7_resources_released inpC7 0 rfl (by decide)

/-- Claim C8: a session fed any finite key sequence without `'q'`, all of
whose frame reads succeed, never terminates on its own: the loop is still
running after consuming the entire input. -/
theorem C8_no_quit_never_terminates (key : Char) (ticks : List TickInput)
    (hq : 'q' ∉ keysOf key ticks)
    (hok : ∀ t ∈ ticks, t.frameOk = true) :
    (runLoop key ticks).2 = LoopOutcome.running := by
  induction ticks generalizing key with
  | nil =>
    simp only [keysOf, List.map_nil, List.mem_singleton] at hq
    have hk : ¬ key = 'q' := fun h => hq h.symm
    simp [runLoop, hk]
  | cons t rest ih =>
    simp only [keysOf, List.map_cons, List.mem_cons, not_or] at hq
    have hk : ¬ key = 'q' := fun h => hq.1 h.symm
    have hf : t.frameOk = true := hok t (by simp)
    have hq' : 'q' ∉ keysOf t.nextKey rest := by
      simp only [keysOf, List.mem_cons, not_or]
      exact ⟨hq.2.1, hq.2.2⟩
    have hok' : ∀ u ∈ rest, u.frameOk = true := fun u hu => hok u (by simp [hu])
    rw [runLoop]
    simp [hk, hf, ih t.nextKey hq' hok']

/-- Claim C8 witness: the key sequence `['s', 'a']` with one successful
frame read. -/
theorem C8_no_quit_witness :
    'q' ∉ keysOf 's' ticksC8 ∧ (∀ t ∈ ticksC8, t.frameOk = true) ∧
    (runLoop 's' ticksC8).2 = LoopOutcome.running :=
  ⟨by decide, by decide,
   C8_no_quit_never_terminates 's' ticksC8 (by decide) (by decide)⟩

/-- Claim C9: when GPIO initialization fails on a terminated session whose
result file was read, the failure is reported, no pin is ever written (the
failure is fatal to the alert stage only), the process exits in an orderly
way with code −1, and the session's saved images are exactly those of the
same run with working GPIO — the already-completed work is unaffected. -/
theorem C9_pin_init_failure_scoped (inp : Input) (chunks : List String)
    (hcam : inp.camOpens = true) (hff : inp.firstFrameOk = true)
    (hloop : (runLoop inp.initialKey inp.ticks).2 ≠ LoopOutcome.running)
    (hfile : inp.resultFile = some chunks)
    (hg : inp.gpioInitOk = false) :
    Event.print "failed to WiringPi library initialization" ∈ (mainRun inp).1 ∧
    pinWrites (mainRun inp).1 = [] ∧
    (mainRun inp).2 = ProgResult.exited (-1) ∧
    savedEvents (mainRun inp).1 =
      savedEvents (mainRun { inp with gpioInitOk := true }).1 := by
  obtain ⟨cam, ff, ik, tks, de, rf, gp⟩ := inp
  simp only at hcam hff hloop hfile hg
  subst hcam hff hfile hg
  refine ⟨?_, ?_, ?_, ?_⟩
  · rw [mainRun_terminated _ rfl rfl hloop, postLoop_gpioFail _ chunks rfl rfl]
    simp
  · rw [pinWrites,
        mainRun_filter_stage _ isPinWrite stage_of_isPinWrite rfl rfl hloop,
        postLoop_gpioFail _ chunks rfl rfl]
    have hmap := filter_print_map isPinWrite (fun s => rfl)
    simp [List.filter_append, hmap chunks, isPinWrite]
  · rw [mainRun_terminated _ rfl rfl hloop, postLoop_gpioFail _ chunks rfl rfl]
  · rw [savedEvents, savedEvents,
        mainRun_terminated _ rfl rfl hloop, mainRun_terminated _ rfl rfl hloop]
    simp [List.filter_cons, List.filter_append, isImageSave,
          postLoop_no_saves]

/-- Claim C9 witness: the concrete run with failing GPIO and one detection
line. -/
theorem C9_pin_init_failure_witness :
    Event.print "failed to WiringPi library initialization" ∈ (mainRun inpC9).1 ∧
    pinWrites (mainRun inpC9).1 = [] ∧
    (mainRun inpC9).2 = ProgResult.exited (-1) ∧
    savedEvents (mainRun inpC9).1 =
      savedEvents (mainRun { inpC9 with gpioInitOk := true }).1 :=
  C9_pin_init_failure_scoped inpC9 ["person 0.91 10 20 30 40\n"]
    rfl rfl (by decide) rfl rfl

/-- Claim C10 (counterexample): on a session with no save at all and a
missing result file, the detector invocation and the result-file open do
run, but the buzzer stage never runs — no GPIO event occurs and the
process exits with code 1 before reaching `wiringPiSetupGpio`. -/
theorem C10_missing_file_skips_buzzer_stage :
    savedEvents (mainRun inpC10).1 = [] ∧
    Event.systemCall detectCmd ∈ (mainRun inpC10).1 ∧
    Event.fopenAttempt resultFilename ∈ (mainRun inpC10).1 ∧
    (mainRun inpC10).1.filter isGpioEvent = [] ∧
    (mainRun inpC10).2 = ProgResult.exited 1 := by
  refine ⟨rfl, by decide, by decide, rfl, rfl⟩

/-- Claim C10 (amended): after the capture loop exits, the run performs the
detector invocation exactly once and the result-file open exactly once,
even when nothing was saved; the buzzer stage runs exactly once when the
result file opens, and is skipped entirely (exit code 1) when it is
missing. -/
theorem C10_post_loop_stages_once (inp : Input)
    (hcam : inp.camOpens = true) (hff : inp.firstFrameOk = true)
    (hloop : (runLoop inp.initialKey inp.ticks).2 ≠ LoopOutcome.running) :
    ((mainRun inp).1.filter isDetectorCall).length = 1 ∧
    ((mainRun inp).1.filter isFopen).length = 1 ∧
    (inp.resultFile = none →
      (mainRun inp).1.filter isGpioEvent = [] ∧
      (mainRun inp).2 = ProgResult.exited 1) ∧
    (∀ chunks, inp.resultFile = some chunks →
      ((mainRun inp).1.filter isGpioSetup).length = 1) := by
  refine ⟨?_, ?_, ?_, ?_⟩
  · rw [mainRun_filter_stage inp isDetectorCall stage_of_isDetectorCall hcam hff hloop,
        postLoop_detectorCalls inp]
    rfl
  · rw [mainRun_filter_stage inp isFopen stage_of_isFopen hcam hff hloop,
        postLoop_fopens inp]
    rfl
  · intro hmiss
    constructor
    · rw [mainRun_filter_stage inp isGpioEvent stage_of_isGpioEvent hcam hff hloop]
      exact postLoop_none_no_gpio inp hmiss
    · rw [mainRun_terminated inp hcam hff hloop, postLoop_none inp hmiss]
  · intro chunks hsome
    rw [mainRun_filter_stage inp isGpioSetup stage_of_isGpioSetup hcam hff hloop,
        postLoop_gpioSetups inp chunks hsome]
    rfl

/-- Claim C10 witness: the amended statement applied to the concrete
no-save run with a missing result file. -/
theorem C10_post_loop_stages_once_witness :
    ((mainRun inpC10).1.filter isDetectorCall).length = 1 ∧
    ((mainRun inpC10).1.filter isFopen).length = 1 ∧
    (inpC10.resultFile = none →
      (mainRun inpC10).1.filter isGpioEvent = [] ∧
      (mainRun inpC10).2 = ProgResult.exited 1) ∧
    (∀ chunks, inpC10.resultFile = some chunks →
      ((mainRun inpC10).1.filter isGpioSetup).length = 1) :=
  C10_post_loop_stages_once inpC10 rfl rfl (by decide)

end DeviceEmbedding
